import Mathlib

/-!
Verification of the adjustable-bed integration core: the connection
coordinator's write path, the vendor protocol encoders (Linak, Jiecang,
DewertOkin), the position decoder, the position-callback registry, and the
base entity availability property.

The vendor controllers and the coordinator module itself are not among the
shipped sources (only their test suites and the host-platform glue are), so
those operations are modelled from the design specification, with the
concrete command byte tables and pinned observable behaviours taken from the
repository's own test suites.  The base entity `available` property is
embedded directly from `custom_components/smartbed/entity.py` and
`custom_components/adjustable_bed/entity.py`.
-/

namespace SmartBed

/-- Write target of a command: a characteristic UUID string (most vendors) or
a raw numeric attribute handle (the DewertOkin family).  Mirrors the Command
Model's target field from the spec data model. -/
inductive Target where
  | charUuid (uuid : String)
  | handle (h : Nat)
deriving DecidableEq

/-- One observable transport-level event emitted by the write path: a GATT
write of a payload to a target (with its acknowledgement mode), or an
inter-repeat sleep of the configured delay in milliseconds. -/
inductive Event where
  | write (target : Target) (payload : List Nat) (response : Bool)
  | sleep (ms : Nat)
deriving DecidableEq

/-- Hard errors of the write path: `notConnected` when no live session
exists, and `transportFault` carrying the underlying transport error message
verbatim (a BleakError in the source). -/
inductive BedError where
  | notConnected
  | transportFault (msg : String)
deriving DecidableEq

/-- Modelled from the spec: the live transport session state seen by the
write path.  `is_connected` is the transport's connectivity flag; `faults`
is the fault oracle for the underlying `write_gatt_char` calls — entry `i`
is `some msg` when the i-th physical write raises a transport error with
message `msg`, and `none` (also beyond the list) when it succeeds. -/
structure Session where
  is_connected : Bool
  faults : List (Option String)
deriving DecidableEq

/-- Modelled from the spec: the repeat loop of `write_command`.  Starting at
physical write index `i` with `k` repeats left, it performs the writes in
sequence, sleeping the inter-repeat delay between consecutive repeats, and
surfaces the first transport fault verbatim. -/
def writeLoop (sess : Session) (target : Target) (payload : List Nat)
    (response : Bool) (delayMs : Nat) : Nat → Nat → Except BedError (List Event)
  | _, 0 => .ok []
  | i, k + 1 =>
    match sess.faults.getD i none with
    | some msg => .error (.transportFault msg)
    | none =>
      match writeLoop sess target payload response delayMs (i + 1) k with
      | .error e => .error e
      | .ok rest =>
        .ok (.write target payload response ::
          (if k = 0 then rest else .sleep delayMs :: rest))

/-- Modelled from the spec: `write_command` requires a live session (fails
with `NotConnected` otherwise) and performs `repeatCount` sequential writes
of `payload` to `target`, honouring the acknowledgement mode and sleeping
`delayMs` between repeats; any transport fault propagates unchanged. -/
def write_command (sess : Session) (target : Target) (payload : List Nat)
    (response : Bool) (repeatCount : Nat) (delayMs : Nat) :
    Except BedError (List Event) :=
  if sess.is_connected then
    writeLoop sess target payload response delayMs 0 repeatCount
  else
    .error .notConnected

/-- The write events of a transport trace, in order. -/
def writeEvents : List Event → List (Target × List Nat × Bool)
  | [] => []
  | .write t p r :: rest => (t, p, r) :: writeEvents rest
  | .sleep _ :: rest => writeEvents rest

/-- The sleep durations of a transport trace, in order. -/
def sleepEvents : List Event → List Nat
  | [] => []
  | .write _ _ _ :: rest => sleepEvents rest
  | .sleep ms :: rest => ms :: sleepEvents rest

/-- A session is fault-free when its fault oracle never reports a fault. -/
def Session.faultFree (sess : Session) : Prop :=
  ∀ i, sess.faults.getD i none = none

/-! ## Vendor command tables

Command byte values as asserted by the repository's test suites
(`test_linak.py`, `test_jiecang.py`, `test_dewertokin.py`); the encoder
modules themselves are absent from the shipped sources. -/

namespace LinakCommands

def PRESET_MEMORY_1 : List Nat := [0x0E, 0x00]

def PRESET_MEMORY_2 : List Nat := [0x0F, 0x00]

def PRESET_MEMORY_3 : List Nat := [0x0C, 0x00]

def PRESET_MEMORY_4 : List Nat := [0x44, 0x00]

def PROGRAM_MEMORY_1 : List Nat := [0x38, 0x00]

def PROGRAM_MEMORY_2 : List Nat := [0x39, 0x00]

def PROGRAM_MEMORY_3 : List Nat := [0x3A, 0x00]

def PROGRAM_MEMORY_4 : List Nat := [0x45, 0x00]

def MOVE_STOP : List Nat := [0x00, 0x00]

def MOVE_HEAD_UP : List Nat := [0x03, 0x00]

def MOVE_HEAD_DOWN : List Nat := [0x02, 0x00]

def MOVE_LEGS_UP : List Nat := [0x09, 0x00]

def MOVE_LEGS_DOWN : List Nat := [0x08, 0x00]

def LIGHTS_ON : List Nat := [0x92, 0x00]

def LIGHTS_OFF : List Nat := [0x93, 0x00]

def LIGHTS_TOGGLE : List Nat := [0x94, 0x00]

def MASSAGE_ALL_OFF : List Nat := [0x80, 0x00]

def MASSAGE_ALL_TOGGLE : List Nat := [0x91, 0x00]

def MASSAGE_HEAD_TOGGLE : List Nat := [0xA6, 0x00]

def MASSAGE_FOOT_TOGGLE : List Nat := [0xA7, 0x00]

end LinakCommands

/-- All Linak command payloads declared by the encoder (2-byte little-endian
opcode family). -/
def linakDeclaredCommands : List (List Nat) :=
  [LinakCommands.PRESET_MEMORY_1, LinakCommands.PRESET_MEMORY_2,
   LinakCommands.PRESET_MEMORY_3, LinakCommands.PRESET_MEMORY_4,
   LinakCommands.PROGRAM_MEMORY_1, LinakCommands.PROGRAM_MEMORY_2,
   LinakCommands.PROGRAM_MEMORY_3, LinakCommands.PROGRAM_MEMORY_4,
   LinakCommands.MOVE_STOP, LinakCommands.MOVE_HEAD_UP,
   LinakCommands.MOVE_HEAD_DOWN, LinakCommands.MOVE_LEGS_UP,
   LinakCommands.MOVE_LEGS_DOWN, LinakCommands.LIGHTS_ON,
   LinakCommands.LIGHTS_OFF, LinakCommands.LIGHTS_TOGGLE,
   LinakCommands.MASSAGE_ALL_OFF, LinakCommands.MASSAGE_ALL_TOGGLE,
   LinakCommands.MASSAGE_HEAD_TOGGLE, LinakCommands.MASSAGE_FOOT_TOGGLE]

namespace JiecangCommands

def MEMORY_1 : List Nat := [0xF1, 0xF1, 0x0B, 0x01, 0x01, 0x0D, 0x7E]

def MEMORY_2 : List Nat := [0xF1, 0xF1, 0x0D, 0x01, 0x01, 0x0F, 0x7E]

def FLAT : List Nat := [0xF1, 0xF1, 0x08, 0x01, 0x01, 0x0A, 0x7E]

def ZERO_G : List Nat := [0xF1, 0xF1, 0x07, 0x01, 0x01, 0x09, 0x7E]

end JiecangCommands

/-- All Jiecang command payloads declared by the encoder (7-byte frame family
with 0xF1F1 prefix and 0x7E suffix). -/
def jiecangDeclaredCommands : List (List Nat) :=
  [JiecangCommands.MEMORY_1, JiecangCommands.MEMORY_2,
   JiecangCommands.FLAT, JiecangCommands.ZERO_G]

namespace DewertOkinCommands

def FLAT : List Nat := [0x04, 0x02, 0x10, 0x00, 0x00, 0x00]

def ZERO_G : List Nat := [0x04, 0x02, 0x00, 0x00, 0x40, 0x00]

def TV : List Nat := [0x04, 0x02, 0x00, 0x00, 0x30, 0x00]

def QUIET_SLEEP : List Nat := [0x04, 0x02, 0x00, 0x00, 0x80, 0x00]

def MEMORY_1 : List Nat := [0x04, 0x02, 0x00, 0x00, 0x10, 0x00]

def MEMORY_2 : List Nat := [0x04, 0x02, 0x00, 0x00, 0x20, 0x00]

def HEAD_UP : List Nat := [0x04, 0x02, 0x00, 0x00, 0x00, 0x01]

def HEAD_DOWN : List Nat := [0x04, 0x02, 0x00, 0x00, 0x00, 0x02]

def FOOT_UP : List Nat := [0x04, 0x02, 0x00, 0x00, 0x00, 0x04]

def FOOT_DOWN : List Nat := [0x04, 0x02, 0x00, 0x00, 0x00, 0x08]

def STOP : List Nat := [0x04, 0x02, 0x00, 0x00, 0x00, 0x00]

def WAVE_MASSAGE : List Nat := [0x04, 0x02, 0x80, 0x00, 0x00, 0x00]

def HEAD_MASSAGE : List Nat := [0x04, 0x02, 0x00, 0x00, 0x08, 0x00]

def FOOT_MASSAGE : List Nat := [0x04, 0x02, 0x00, 0x40, 0x00, 0x00]

def MASSAGE_OFF : List Nat := [0x04, 0x02, 0x02, 0x00, 0x00, 0x00]

def UNDERLIGHT : List Nat := [0x04, 0x02, 0x00, 0x02, 0x00, 0x00]

end DewertOkinCommands

/-- All DewertOkin command payloads declared by the encoder (6-byte bitmask
frame family). -/
def dewertOkinDeclaredCommands : List (List Nat) :=
  [DewertOkinCommands.FLAT, DewertOkinCommands.ZERO_G, DewertOkinCommands.TV,
   DewertOkinCommands.QUIET_SLEEP, DewertOkinCommands.MEMORY_1,
   DewertOkinCommands.MEMORY_2, DewertOkinCommands.HEAD_UP,
   DewertOkinCommands.HEAD_DOWN, DewertOkinCommands.FOOT_UP,
   DewertOkinCommands.FOOT_DOWN, DewertOkinCommands.WAVE_MASSAGE,
   DewertOkinCommands.HEAD_MASSAGE, DewertOkinCommands.FOOT_MASSAGE,
   DewertOkinCommands.MASSAGE_OFF, DewertOkinCommands.UNDERLIGHT,
   DewertOkinCommands.STOP]

/-! ## Continuous-movement emulation -/

/-- Modelled from the spec: the stop-terminated repeat pattern of the
continuous-movement emulation.  A movement action issues the move command
`repeatCount` times — or fewer when a cooperative cancellation arrives after
`cancelAfter` repeats — and then unconditionally emits exactly one stop
command as the final write, even on early cancellation.  The result is the
ordered list of payloads written to the transport. -/
def moveSequence (moveCmd stopCmd : List Nat) (repeatCount : Nat)
    (cancelAfter : Option Nat) : List (List Nat) :=
  List.replicate (min repeatCount (cancelAfter.getD repeatCount)) moveCmd ++ [stopCmd]

/-- Result of one controller action: the ordered payloads written to the
transport and the warning emitted, if any.  An action that "logs and no-ops"
returns normally with an empty write list and a warning. -/
structure ActionResult where
  writes : List (List Nat)
  warning : Option String
deriving DecidableEq

/-- Modelled from the spec: `move_head_up` on the Linak controller (2-byte
little-endian opcode family) — repeat-and-stop with `MOVE_HEAD_UP`, then one
`MOVE_STOP`. -/
def linak_move_head_up (repeatCount : Nat) (cancelAfter : Option Nat) : ActionResult :=
  ⟨moveSequence LinakCommands.MOVE_HEAD_UP LinakCommands.MOVE_STOP repeatCount cancelAfter, none⟩

/-- Modelled from the spec: `move_legs_down` on the Linak controller. -/
def linak_move_legs_down (repeatCount : Nat) (cancelAfter : Option Nat) : ActionResult :=
  ⟨moveSequence LinakCommands.MOVE_LEGS_DOWN LinakCommands.MOVE_STOP repeatCount cancelAfter, none⟩

/-- Modelled from the spec: `move_head_up` on the DewertOkin controller
(6-byte bitmask frame family) — repeat-and-stop with `HEAD_UP`, then one
`STOP`. -/
def dewertokin_move_head_up (repeatCount : Nat) (cancelAfter : Option Nat) : ActionResult :=
  ⟨moveSequence DewertOkinCommands.HEAD_UP DewertOkinCommands.STOP repeatCount cancelAfter, none⟩

/-! ## Preset dispatch -/

/-- Modelled from the spec: the per-vendor data consulted by
`preset_memory` — the declared memory-preset table (slot number to command
payload), the vendor's repeat policy for preset commands, and the warning
text logged for an unsupported slot. -/
structure VendorPresets where
  table : List (Nat × List Nat)
  repeatCount : Nat
  unsupportedWarning : String
deriving DecidableEq

/-- The preset slots a vendor declares support for. -/
def VendorPresets.supported (v : VendorPresets) : List Nat :=
  v.table.map Prod.fst

/-- Modelled from the spec: `preset_memory(n)` — a slot outside the vendor's
declared set performs zero transport writes and emits a warning; a supported
slot writes the vendor's table entry for that slot, repeated per the
vendor's preset repeat policy (so the first write is the table entry). -/
def preset_memory (v : VendorPresets) (n : Nat) : ActionResult :=
  match v.table.lookup n with
  | none => ⟨[], some v.unsupportedWarning⟩
  | some cmd => ⟨List.replicate v.repeatCount cmd, none⟩

/-- Linak memory presets 1–4 (table entries pinned by the test suite; the
exact repeat constant is a vendor-declared design parameter). -/
def linakPresets : VendorPresets :=
  ⟨[(1, LinakCommands.PRESET_MEMORY_1), (2, LinakCommands.PRESET_MEMORY_2),
    (3, LinakCommands.PRESET_MEMORY_3), (4, LinakCommands.PRESET_MEMORY_4)],
   3, "Linak beds only support memory presets 1-4"⟩

/-- Jiecang memory presets: only slots 1 and 2; preset commands are written
with repeat count 3 (pinned by the test suite). -/
def jiecangPresets : VendorPresets :=
  ⟨[(1, JiecangCommands.MEMORY_1), (2, JiecangCommands.MEMORY_2)],
   3, "Jiecang beds only support memory presets 1 and 2"⟩

/-- DewertOkin memory presets: only slots 1 and 2. -/
def dewertOkinPresets : VendorPresets :=
  ⟨[(1, DewertOkinCommands.MEMORY_1), (2, DewertOkinCommands.MEMORY_2)],
   3, "DewertOkin beds only support memory presets 1 and 2"⟩

/-- The vendor preset descriptors of the modelled vendors. -/
def allVendorPresets : List VendorPresets :=
  [linakPresets, jiecangPresets, dewertOkinPresets]

/-! ## Capability rejection (preset-only vendors, unsupported features) -/

/-- Motor identifiers of the uniform action surface. -/
inductive Motor where
  | back
  | legs
  | head
  | feet
deriving DecidableEq

/-- Movement direction of the uniform action surface. -/
inductive Dir where
  | up
  | down
deriving DecidableEq

/-- The preset-only notice logged by the Jiecang controller when a
continuous-movement action is requested (the test suite pins the fragment
"only support preset positions"). -/
def jiecangPresetOnlyNotice : String :=
  "Jiecang beds only support preset positions"

/-- The warning logged by the Jiecang controller for `program_memory` (the
test suite pins the fragment "support programming memory presets"). -/
def jiecangProgramMemoryWarning : String :=
  "Jiecang beds do not support programming memory presets"

/-- Modelled from the spec: any continuous-movement action
(`move_<motor>_<dir>`) on the preset-only Jiecang controller performs zero
transport writes, logs the preset-only notice at warning level, and returns
normally. -/
def jiecang_move (_ : Motor) (_ : Dir) : ActionResult :=
  ⟨[], some jiecangPresetOnlyNotice⟩

/-- Modelled from the spec: `move_<motor>_stop` on the preset-only Jiecang
controller performs zero transport writes and returns normally. -/
def jiecang_move_stop (_ : Motor) : ActionResult :=
  ⟨[], some jiecangPresetOnlyNotice⟩

/-- Modelled from the spec: `stop_all` on the preset-only Jiecang controller
performs zero transport writes (no true motor-stop semantics) and returns
normally. -/
def jiecang_stop_all : ActionResult :=
  ⟨[], some jiecangPresetOnlyNotice⟩

/-- Modelled from the spec: `program_memory(n)` on the Jiecang controller,
which has no programmable memory — zero writes, a warning, normal return. -/
def jiecang_program_memory (_ : Nat) : ActionResult :=
  ⟨[], some jiecangProgramMemoryWarning⟩

/-! ## Position decoder -/

/-- The unsigned little-endian integer of the first two payload bytes. -/
def rawOf (payload : List Nat) : Nat :=
  payload.getD 0 0 + 256 * payload.getD 1 0

/-- Modelled from the spec: the position decoder.  A payload shorter than
2 bytes is rejected (no decode); otherwise the first two bytes are read as
an unsigned little-endian integer `raw` and the angle is
`min maxAngle (raw / maxRaw * maxAngle)`, clamped non-negative. -/
def decode_position (payload : List Nat) (maxRaw : Nat) (maxAngle : ℚ) : Option ℚ :=
  if payload.length < 2 then none
  else some (max 0 (min maxAngle ((rawOf payload : ℚ) / (maxRaw : ℚ) * maxAngle)))

/-- Modelled from the spec: `_handle_position_data` — decode the payload and,
on success, invoke the notification callback once with the motor and decoded
angle; a malformed (short) sample invokes the callback zero times.  The
result is the ordered list of callback invocations. -/
def handle_position_data (motor : String) (payload : List Nat) (maxRaw : Nat)
    (maxAngle : ℚ) : List (String × ℚ) :=
  match decode_position payload maxRaw maxAngle with
  | none => []
  | some a => [(motor, a)]

/-! ## Coordinator: position table and callback registry -/

/-- Modelled from the spec: the coordinator state relevant to position
updates — the Position Table (latest decoded angle per motor) and the
registered position callbacks, identified by registration tokens, in
registration order. -/
structure Coordinator where
  position_data : List (String × ℚ)
  callbacks : List Nat

/-- Update an association list, overwriting the entry for `motor` or
appending a fresh one. -/
def setPosition : List (String × ℚ) → String → ℚ → List (String × ℚ)
  | [], motor, angle => [(motor, angle)]
  | (k, v) :: rest, motor, angle =>
    if k = motor then (motor, angle) :: rest
    else (k, v) :: setPosition rest motor angle

/-- Modelled from the spec: `register_position_callback` appends the callback
to the registry and hands back an unregister token for it. -/
def register_position_callback (c : Coordinator) (cb : Nat) : Coordinator :=
  { c with callbacks := c.callbacks ++ [cb] }

/-- Modelled from the spec: the unregister function returned by
`register_position_callback` — removes (the first occurrence of) the
callback from the registry, leaving all others registered. -/
def unregister_position_callback (c : Coordinator) (cb : Nat) : Coordinator :=
  { c with callbacks := c.callbacks.erase cb }

/-- Modelled from the spec: `_handle_position_update` — store the decoded
angle in the Position Table, then invoke every registered callback once, in
registration order, with the updated table.  Returns the new state and the
ordered list of callback invocations (callback token, table passed). -/
def handle_position_update (c : Coordinator) (motor : String) (angle : ℚ) :
    Coordinator × List (Nat × List (String × ℚ)) :=
  let pd := setPosition c.position_data motor angle
  ({ c with position_data := pd }, c.callbacks.map fun cb => (cb, pd))

/-! ## Coordinator: connect -/

/-- The environment `async_connect` runs against: whether any radio resolves
the configured address to a device, and whether establishing the transport
session to a located device raises a transport fault (a BleakError with the
given message). -/
structure ConnectEnv where
  device_found : Bool
  establish_fault : Option String
deriving DecidableEq

/-- Observable outcome of `async_connect`: the returned success flag, whether
the controller reference was set, and the exception surfaced to the caller,
if any. -/
structure ConnectOutcome where
  result : Bool
  controller_set : Bool
  raised : Option String
deriving DecidableEq

/-- Modelled from the spec and the repository's coordinator tests (the
coordinator module is absent from the shipped sources): `async_connect`
returns `False` with the controller unset when the address does not resolve
to a device, catches a transport fault during session establishment and
likewise returns `False` (the test suite pins that a BleakError from
`establish_connection` yields a `False` return, not a raised exception), and
on success sets the controller and returns `True`. -/
def async_connect (env : ConnectEnv) : ConnectOutcome :=
  if env.device_found = false then ⟨false, false, none⟩
  else
    match env.establish_fault with
    | some _ => ⟨false, false, none⟩
    | none => ⟨true, true, none⟩

/-! ## Base entity availability

Embedded directly from `custom_components/smartbed/entity.py` and
`custom_components/adjustable_bed/entity.py`: the `available` property of
the base entity classes. -/

/-- The coordinator/connection state visible to an entity when `available`
is evaluated (the property ignores all of it). -/
structure EntityCtx where
  coordinator_connected : Bool
  session_present : Bool
deriving DecidableEq

/-- `SmartBedEntity.available`: returns `True` unconditionally — entities are
always available while the integration is loaded; connection happens
on demand when a command is sent. -/
def SmartBedEntity_available (_ : EntityCtx) : Bool :=
  true

/-- `AdjustableBedEntity.available`: returns `True` unconditionally, same as
the smartbed variant. -/
def AdjustableBedEntity_available (_ : EntityCtx) : Bool :=
  true

/-! ## Helper lemmas -/

/-- One unfolding step of the repeat loop. -/
lemma writeLoop_succ (sess : Session) (t : Target) (p : List Nat) (r : Bool)
    (d i k : Nat) :
    writeLoop sess t p r d i (k + 1) =
      match sess.faults.getD i none with
      | some msg => .error (.transportFault msg)
      | none =>
        match writeLoop sess t p r d (i + 1) k with
        | .error e => .error e
        | .ok rest =>
          .ok (.write t p r :: (if k = 0 then rest else .sleep d :: rest)) := rfl

/-- On a fault-free session the repeat loop succeeds and produces exactly the
alternating trace: `k` writes with the inter-repeat sleep interspersed. -/
lemma writeLoop_faultFree (sess : Session) (t : Target) (p : List Nat) (r : Bool)
    (d : Nat) (hf : sess.faultFree) :
    ∀ k i, writeLoop sess t p r d i k =
      Except.ok (List.intersperse (Event.sleep d) (List.replicate k (Event.write t p r))) := by
  intro k
  induction k with
  | zero => intro i; rfl
  | succ k ih =>
    intro i
    rw [writeLoop_succ, hf i]
    cases k with
    | zero => rfl
    | succ k' =>
      rw [ih (i + 1)]
      rfl

/-- The write events of the alternating trace are the `k` identical writes. -/
lemma writeEvents_trace (t : Target) (p : List Nat) (r : Bool) (d : Nat) :
    ∀ k, writeEvents (List.intersperse (Event.sleep d) (List.replicate k (Event.write t p r))) =
      List.replicate k (t, p, r) := by
  intro k
  induction k with
  | zero => rfl
  | succ k ih =>
    cases k with
    | zero => rfl
    | succ k' =>
      show (t, p, r) :: writeEvents (List.intersperse (Event.sleep d)
          (List.replicate (k' + 1) (Event.write t p r))) =
        (t, p, r) :: List.replicate (k' + 1) (t, p, r)
      rw [ih]

/-- The sleep events of the alternating trace are the `k - 1` inter-repeat
delays. -/
lemma sleepEvents_trace (t : Target) (p : List Nat) (r : Bool) (d : Nat) :
    ∀ k, sleepEvents (List.intersperse (Event.sleep d) (List.replicate k (Event.write t p r))) =
      List.replicate (k - 1) d := by
  intro k
  induction k with
  | zero => rfl
  | succ k ih =>
    cases k with
    | zero => rfl
    | succ k' =>
      show d :: sleepEvents (List.intersperse (Event.sleep d)
          (List.replicate (k' + 1) (Event.write t p r))) =
        d :: List.replicate k' d
      rw [ih]
      simp

/-- The last payload of a stop-terminated movement sequence is the stop
command. -/
lemma moveSequence_getLast (m s : List Nat) (n : Nat) (c : Option Nat) :
    (moveSequence m s n c).getLast? = some s := by
  simp [moveSequence]

/-- Every payload before the final one in a movement sequence is the move
command. -/
lemma moveSequence_dropLast (m s : List Nat) (n : Nat) (c : Option Nat) :
    (moveSequence m s n c).dropLast = List.replicate (min n (c.getD n)) m := by
  simp [moveSequence]

/-- When the move and stop payloads differ, the stop command occurs exactly
once in the movement sequence. -/
lemma moveSequence_count (m s : List Nat) (n : Nat) (c : Option Nat) (h : m ≠ s) :
    (moveSequence m s n c).count s = 1 := by
  have hzero : (List.replicate (min n (c.getD n)) m).count s = 0 := by
    rw [List.count_eq_zero]
    intro hmem
    exact h (List.eq_of_mem_replicate hmem).symm
  simp [moveSequence, List.count_append, hzero]

/-- A key absent from an association list makes `lookup` return `none`. -/
lemma lookup_eq_none_of_not_mem_keys (n : Nat) :
    ∀ l : List (Nat × List Nat), n ∉ l.map Prod.fst → l.lookup n = none := by
  intro l
  induction l with
  | nil => intro _; rfl
  | cons hd tl ih =>
    intro hmem
    simp only [List.map_cons, List.mem_cons] at hmem
    push_neg at hmem
    have hne : (n == hd.1) = false := beq_eq_false_iff_ne.mpr hmem.1
    simp [List.lookup, hne, ih hmem.2]

/-- Looking up the updated motor in the Position Table yields the new angle. -/
lemma lookup_setPosition (motor : String) (angle : ℚ) :
    ∀ pd : List (String × ℚ), (setPosition pd motor angle).lookup motor = some angle := by
  intro pd
  induction pd with
  | nil => simp [setPosition, List.lookup]
  | cons hd tl ih =>
    by_cases hk : hd.1 = motor
    · simp [setPosition, hk, List.lookup]
    · have hne : (motor == hd.1) = false :=
        beq_eq_false_iff_ne.mpr fun h => hk h.symm
      simp [setPosition, hk, List.lookup, hne, ih]

/-! ## Claim theorems -/

/-- Claim C1: every continuous-movement action on a movement-capable vendor
issues a write sequence that ends with exactly one stop-command write as its
last element, regardless of the configured repeat count and of mid-sequence
cancellation; in particular, for the 2-byte little-endian family, Linak
`move_head_up` yields a sequence whose last payload is exactly `0x0000` and
whose preceding payloads are all `0x0003`, and the Linak `move_legs_down`
and DewertOkin `move_head_up` sequences likewise end in the vendor's stop
command. -/
theorem moveSequence_stop_terminated (m s : List Nat) (n : Nat) (c : Option Nat) :
    (moveSequence m s n c).getLast? = some s ∧
    (∀ p ∈ (moveSequence m s n c).dropLast, p = m) ∧
    (m ≠ s → (moveSequence m s n c).count s = 1) ∧
    (linak_move_head_up n c).writes.getLast? = some [0x00, 0x00] ∧
    (∀ p ∈ (linak_move_head_up n c).writes.dropLast, p = [0x03, 0x00]) ∧
    (linak_move_head_up n c).writes.count [0x00, 0x00] = 1 ∧
    (linak_move_legs_down n c).writes.getLast? = some LinakCommands.MOVE_STOP ∧
    (dewertokin_move_head_up n c).writes.getLast? = some DewertOkinCommands.STOP := by
  refine ⟨moveSequence_getLast m s n c, ?_, moveSequence_count m s n c,
    moveSequence_getLast _ _ n c, ?_,
    moveSequence_count _ _ n c (by decide),
    moveSequence_getLast _ _ n c, moveSequence_getLast _ _ n c⟩
  · rw [moveSequence_dropLast]
    intro p hp
    exact List.eq_of_mem_replicate hp
  · show ∀ p ∈ (moveSequence LinakCommands.MOVE_HEAD_UP LinakCommands.MOVE_STOP
        n c).dropLast, p = [0x03, 0x00]
    rw [moveSequence_dropLast]
    intro p hp
    exact List.eq_of_mem_replicate hp

/-- Claim C1 witness: at repeat count 5 with cancellation after 2 repeats,
the Linak head-up sequence contains exactly one stop write and ends in it. -/
theorem moveSequence_stop_terminated_witness :
    (moveSequence [0x03, 0x00] [0x00, 0x00] 5 (some 2)).count [0x00, 0x00] = 1 ∧
    (moveSequence [0x03, 0x00] [0x00, 0x00] 5 (some 2)).getLast? = some [0x00, 0x00] :=
  ⟨(moveSequence_stop_terminated [0x03, 0x00] [0x00, 0x00] 5 (some 2)).2.2.1 (by decide),
   (moveSequence_stop_terminated [0x03, 0x00] [0x00, 0x00] 5 (some 2)).1⟩

/-- Claim C2: on a live, fault-free session, `write_command` with repeat
count `k` performs exactly `k` transport writes, each to the same target
with the same payload and acknowledgement mode, spaced by the configured
inter-repeat delay: the trace is the `k` identical writes with the delay
interspersed, so its write events are `k` copies of the command and its
sleep events are `k - 1` copies of the delay. -/
theorem write_command_repeat_spec (sess : Session) (t : Target) (p : List Nat)
    (r : Bool) (k d : Nat) (hc : sess.is_connected = true) (hf : sess.faultFree)
    (_hk : 0 < k) :
    write_command sess t p r k d =
      Except.ok (List.intersperse (Event.sleep d) (List.replicate k (Event.write t p r))) ∧
    writeEvents (List.intersperse (Event.sleep d) (List.replicate k (Event.write t p r))) =
      List.replicate k (t, p, r) ∧
    sleepEvents (List.intersperse (Event.sleep d) (List.replicate k (Event.write t p r))) =
      List.replicate (k - 1) d := by
  refine ⟨?_, writeEvents_trace t p r d k, sleepEvents_trace t p r d k⟩
  simp [write_command, hc, writeLoop_faultFree sess t p r d hf k 0]

/-- Claim C2 witness: a connected fault-free session with repeat count 3 and
delay 50 ms issues write, sleep, write, sleep, write. -/
theorem write_command_repeat_spec_witness :
    write_command ⟨true, []⟩ (Target.charUuid "control") [0x03, 0x00] true 3 50 =
      Except.ok [Event.write (Target.charUuid "control") [0x03, 0x00] true,
        Event.sleep 50, Event.write (Target.charUuid "control") [0x03, 0x00] true,
        Event.sleep 50, Event.write (Target.charUuid "control") [0x03, 0x00] true] := by
  have h := (write_command_repeat_spec ⟨true, []⟩ (Target.charUuid "control")
      [0x03, 0x00] true 3 50 rfl (fun i => by simp [List.getD]) (by decide)).1
  rw [h]
  rfl

/-- The repeat loop surfaces the first transport fault it encounters, at any
position in the repeat sequence, with its message unchanged. -/
lemma writeLoop_fault (sess : Session) (t : Target) (p : List Nat) (r : Bool)
    (d : Nat) :
    ∀ k i j msg, j < k →
      sess.faults.getD (i + j) none = some msg →
      (∀ a, a < j → sess.faults.getD (i + a) none = none) →
      writeLoop sess t p r d i k = .error (.transportFault msg) := by
  intro k
  induction k with
  | zero => intro i j msg hj _ _; exact absurd hj (Nat.not_lt_zero j)
  | succ k ih =>
    intro i j msg hj hf hpre
    rw [writeLoop_succ]
    cases j with
    | zero =>
      have hf0 : sess.faults.getD i none = some msg := hf
      rw [hf0]
    | succ j' =>
      have h0 : sess.faults.getD i none = none := hpre 0 (Nat.succ_pos j')
      rw [h0]
      have hf1 : sess.faults.getD (i + 1 + j') none = some msg := by
        have he : i + 1 + j' = i + (j' + 1) := by omega
        rw [he]
        exact hf
      have hpre1 : ∀ a, a < j' → sess.faults.getD (i + 1 + a) none = none := by
        intro a ha
        have he : i + 1 + a = i + (a + 1) := by omega
        rw [he]
        exact hpre (a + 1) (Nat.succ_lt_succ ha)
      rw [ih (i + 1) j' msg (Nat.lt_of_succ_lt_succ hj) hf1 hpre1]

/-- Claim C3: `write_command` fails with the `NotConnected` error whenever no
live session exists, and a transport fault raised by the underlying write —
at any position `j` in the repeat sequence, not just the first write —
propagates unchanged (same message) to the caller: it is never swallowed or
replaced. -/
theorem write_command_error_spec (sess : Session) (t : Target) (p : List Nat)
    (r : Bool) (k d j : Nat) (msg : String) :
    (sess.is_connected = false →
      write_command sess t p r k d = .error .notConnected) ∧
    (sess.is_connected = true → j < k →
      sess.faults.getD j none = some msg →
      (∀ a, a < j → sess.faults.getD a none = none) →
      write_command sess t p r k d = .error (.transportFault msg)) := by
  constructor
  · intro hc
    simp [write_command, hc]
  · intro hc hj hf hpre
    have h1 : write_command sess t p r k d = writeLoop sess t p r d 0 k := by
      simp [write_command, hc]
    rw [h1]
    refine writeLoop_fault sess t p r d k 0 j msg hj ?_ ?_
    · rw [Nat.zero_add]
      exact hf
    · intro a ha
      rw [Nat.zero_add]
      exact hpre a ha

/-- Claim C3 witness: a disconnected session yields `NotConnected`; with the
first write succeeding, a fault with message "Write failed" on the second of
three writes propagates verbatim. -/
theorem write_command_error_spec_witness :
    write_command ⟨false, []⟩ (Target.handle 0x0013) [0x04, 0x02] false 1 0 =
      Except.error BedError.notConnected ∧
    write_command ⟨true, [none, some "Write failed"]⟩ (Target.charUuid "control")
        [0x00, 0x00] true 3 90 =
      Except.error (BedError.transportFault "Write failed") :=
  ⟨(write_command_error_spec ⟨false, []⟩ (Target.handle 0x0013) [0x04, 0x02]
      false 1 0 0 "x").1 rfl,
   (write_command_error_spec ⟨true, [none, some "Write failed"]⟩
      (Target.charUuid "control") [0x00, 0x00] true 3 90 1 "Write failed").2
      rfl (by decide) rfl
      (by
        intro a ha
        have h0 : a = 0 := by omega
        subst h0
        rfl)⟩

/-- Claim C4 counterexample: with the device located and a transport fault
("Connection failed") arising while establishing the session,
`async_connect` returns a `False` failure with nothing raised — a silent
failure return, not the raised/surfaced `TransportError` the claim
asserts. -/
theorem connect_fault_not_raised :
    (async_connect ⟨true, some "Connection failed"⟩).raised = none ∧
    (async_connect ⟨true, some "Connection failed"⟩).result = false ∧
    (async_connect ⟨true, some "Connection failed"⟩).controller_set = false :=
  ⟨rfl, rfl, rfl⟩

/-- Claim C4 (amended): `connect()` fails with a returned failure — never a
raised exception — both when the transport cannot resolve the address and on
a radio/stack fault while establishing the session to an already-located
device; in both failure cases the controller is left unset, and a successful
connect sets it. -/
theorem connect_outcome_spec (env : ConnectEnv) :
    (env.device_found = false → async_connect env = ⟨false, false, none⟩) ∧
    (env.device_found = true → ∀ msg, env.establish_fault = some msg →
      async_connect env = ⟨false, false, none⟩) ∧
    (env.device_found = true → env.establish_fault = none →
      async_connect env = ⟨true, true, none⟩) := by
  refine ⟨fun h => by simp [async_connect, h],
    fun h msg hm => by simp [async_connect, h, hm],
    fun h hm => by simp [async_connect, h, hm]⟩

/-- Claim C4 (amended) witness: the three concrete connect outcomes. -/
theorem connect_outcome_spec_witness :
    async_connect ⟨false, none⟩ = ⟨false, false, none⟩ ∧
    async_connect ⟨true, some "Connection failed"⟩ = ⟨false, false, none⟩ ∧
    async_connect ⟨true, none⟩ = ⟨true, true, none⟩ :=
  ⟨(connect_outcome_spec ⟨false, none⟩).1 rfl,
   (connect_outcome_spec ⟨true, some "Connection failed"⟩).2.1 rfl
     "Connection failed" rfl,
   (connect_outcome_spec ⟨true, none⟩).2.2 rfl rfl⟩

/-- Claim C5: a notification payload shorter than 2 bytes invokes the
callback zero times; otherwise, with `raw` the unsigned little-endian
integer of the first two bytes, the decoded angle is
`min maxAngle (raw / maxRaw * maxAngle)` clamped non-negative — so `raw = 0`
gives angle 0, `raw = maxRaw` gives `maxAngle`, `raw > maxRaw` is clamped to
`maxAngle`, and a well-formed sample invokes the callback exactly once with
that angle. -/
theorem decode_position_spec (payload : List Nat) (maxRaw : Nat) (maxAngle : ℚ)
    (motor : String) :
    (payload.length < 2 → handle_position_data motor payload maxRaw maxAngle = []) ∧
    (2 ≤ payload.length →
      decode_position payload maxRaw maxAngle =
        some (max 0 (min maxAngle ((rawOf payload : ℚ) / (maxRaw : ℚ) * maxAngle)))) ∧
    (2 ≤ payload.length → 0 ≤ maxAngle → rawOf payload = 0 →
      decode_position payload maxRaw maxAngle = some 0) ∧
    (2 ≤ payload.length → 0 < maxRaw → 0 ≤ maxAngle → rawOf payload = maxRaw →
      decode_position payload maxRaw maxAngle = some maxAngle) ∧
    (2 ≤ payload.length → 0 < maxRaw → 0 ≤ maxAngle → maxRaw < rawOf payload →
      decode_position payload maxRaw maxAngle = some maxAngle) ∧
    (2 ≤ payload.length →
      handle_position_data motor payload maxRaw maxAngle =
        [(motor, max 0 (min maxAngle ((rawOf payload : ℚ) / (maxRaw : ℚ) * maxAngle)))]) := by
  refine ⟨?_, ?_, ?_, ?_, ?_, ?_⟩
  · intro h
    simp [handle_position_data, decode_position, h]
  · intro h
    simp [decode_position, Nat.not_lt.mpr h]
  · intro h hA hr
    simp [decode_position, Nat.not_lt.mpr h, hr, min_eq_right hA]
  · intro h hR hA hr
    have hcast : (maxRaw : ℚ) ≠ 0 := Nat.cast_ne_zero.mpr (Nat.pos_iff_ne_zero.mp hR)
    simp [decode_position, Nat.not_lt.mpr h, hr, div_self hcast, min_self,
      max_eq_right hA]
  · intro h hR hA hr
    have hcast : (0 : ℚ) < (maxRaw : ℚ) := by exact_mod_cast hR
    have h1 : (1 : ℚ) ≤ (rawOf payload : ℚ) / (maxRaw : ℚ) := by
      rw [le_div_iff₀ hcast, one_mul]
      exact_mod_cast hr.le
    have h2 : maxAngle ≤ (rawOf payload : ℚ) / (maxRaw : ℚ) * maxAngle :=
      le_mul_of_one_le_left hA h1
    simp [decode_position, Nat.not_lt.mpr h, min_eq_left h2, max_eq_right hA]
  · intro h
    simp [handle_position_data, decode_position, Nat.not_lt.mpr h]

/-- Claim C5 witness: the pinned decode samples — a 1-byte payload invokes
no callback; 410 of 820 decodes to 34 degrees; 0 decodes to 0; 820 of 820
decodes to the 68-degree maximum. -/
theorem decode_position_spec_witness :
    handle_position_data "back" [0x00] 820 68 = [] ∧
    decode_position [0x9A, 0x01] 820 68 = some 34 ∧
    decode_position [0x00, 0x00] 820 68 = some 0 ∧
    decode_position [0x34, 0x03] 820 68 = some 68 := by
  refine ⟨(decode_position_spec [0x00] 820 68 "back").1 (by decide), ?_,
    (decode_position_spec [0x00, 0x00] 820 68 "back").2.2.1 (by decide)
      (by norm_num) rfl,
    (decode_position_spec [0x34, 0x03] 820 68 "back").2.2.2.1 (by decide)
      (by norm_num) (by norm_num) rfl⟩
  have hraw : rawOf [0x9A, 0x01] = 410 := rfl
  have h := (decode_position_spec [0x9A, 0x01] 820 68 "back").2.1 (by decide)
  rw [h, hraw]
  norm_num

/-- Claim C6: `preset_memory(n)` for a slot outside a vendor's declared
supported set performs zero transport writes and emits a warning; for a
supported slot, the first write's payload is exactly the vendor's
command-table entry for that slot; Linak declares presets 1–4, Jiecang and
DewertOkin only 1 and 2. -/
theorem preset_memory_spec :
    (∀ v ∈ allVendorPresets, ∀ n, n ∉ v.supported →
      (preset_memory v n).writes = [] ∧ (preset_memory v n).warning.isSome = true) ∧
    (∀ v ∈ allVendorPresets, ∀ n cmd, (n, cmd) ∈ v.table →
      (preset_memory v n).writes.head? = some cmd) ∧
    linakPresets.supported = [1, 2, 3, 4] ∧
    jiecangPresets.supported = [1, 2] ∧
    dewertOkinPresets.supported = [1, 2] := by
  refine ⟨?_, ?_, rfl, rfl, rfl⟩
  · intro v _ n hn
    have hl : v.table.lookup n = none := lookup_eq_none_of_not_mem_keys n v.table hn
    simp [preset_memory, hl]
  · intro v hv n cmd hmem
    simp only [allVendorPresets, List.mem_cons, List.not_mem_nil, or_false] at hv
    rcases hv with rfl | rfl | rfl
    · simp only [linakPresets, List.mem_cons, List.not_mem_nil, or_false,
        Prod.mk.injEq] at hmem
      rcases hmem with ⟨rfl, rfl⟩ | ⟨rfl, rfl⟩ | ⟨rfl, rfl⟩ | ⟨rfl, rfl⟩ <;> rfl
    · simp only [jiecangPresets, List.mem_cons, List.not_mem_nil, or_false,
        Prod.mk.injEq] at hmem
      rcases hmem with ⟨rfl, rfl⟩ | ⟨rfl, rfl⟩ <;> rfl
    · simp only [dewertOkinPresets, List.mem_cons, List.not_mem_nil, or_false,
        Prod.mk.injEq] at hmem
      rcases hmem with ⟨rfl, rfl⟩ | ⟨rfl, rfl⟩ <;> rfl

/-- Claim C6 witness: slot 3 on Jiecang performs zero writes with a warning;
slot 4 on Linak writes `PRESET_MEMORY_4` first. -/
theorem preset_memory_spec_witness :
    (preset_memory jiecangPresets 3).writes = [] ∧
    (preset_memory jiecangPresets 3).warning.isSome = true ∧
    (preset_memory linakPresets 4).writes.head? = some [0x44, 0x00] :=
  ⟨(preset_memory_spec.1 jiecangPresets (by decide) 3 (by decide)).1,
   (preset_memory_spec.1 jiecangPresets (by decide) 3 (by decide)).2,
   preset_memory_spec.2.1 linakPresets (by decide) 4 [0x44, 0x00] (by decide)⟩

/-- Claim C7: actions outside the Jiecang capability set — any continuous
movement, per-motor stop, `stop_all`, and `program_memory` — perform zero
transport writes, log a warning (movement rejections carry the preset-only
notice), and return normally. -/
theorem jiecang_capability_rejection (motor : Motor) (dir : Dir) (n : Nat) :
    (jiecang_move motor dir).writes = [] ∧
    (jiecang_move motor dir).warning = some jiecangPresetOnlyNotice ∧
    (jiecang_move_stop motor).writes = [] ∧
    (jiecang_move_stop motor).warning.isSome = true ∧
    jiecang_stop_all.writes = [] ∧
    jiecang_stop_all.warning.isSome = true ∧
    (jiecang_program_memory n).writes = [] ∧
    (jiecang_program_memory n).warning = some jiecangProgramMemoryWarning :=
  ⟨rfl, rfl, rfl, rfl, rfl, rfl, rfl, rfl⟩

/-- Claim C8: every declared command payload has its vendor's fixed frame
length, and the framed families satisfy their structural invariants: every
Jiecang command is exactly 7 bytes, starts with the prefix `0xF1 0xF1` and
ends with the suffix byte `0x7E`; every DewertOkin command is exactly
6 bytes; every Linak command is exactly 2 bytes. -/
theorem command_frame_invariants :
    (∀ cmd ∈ jiecangDeclaredCommands,
      cmd.length = 7 ∧ cmd.take 2 = [0xF1, 0xF1] ∧ cmd.getLast? = some 0x7E) ∧
    (∀ cmd ∈ dewertOkinDeclaredCommands, cmd.length = 6) ∧
    (∀ cmd ∈ linakDeclaredCommands, cmd.length = 2) := by
  decide

/-- Claim C8 witness: the invariants evaluated on concrete commands of each
family. -/
theorem command_frame_invariants_witness :
    JiecangCommands.FLAT.length = 7 ∧
    JiecangCommands.FLAT.take 2 = [0xF1, 0xF1] ∧
    JiecangCommands.FLAT.getLast? = some 0x7E ∧
    DewertOkinCommands.STOP.length = 6 ∧
    LinakCommands.MOVE_HEAD_UP.length = 2 :=
  ⟨(command_frame_invariants.1 JiecangCommands.FLAT (by decide)).1,
   (command_frame_invariants.1 JiecangCommands.FLAT (by decide)).2.1,
   (command_frame_invariants.1 JiecangCommands.FLAT (by decide)).2.2,
   command_frame_invariants.2.1 DewertOkinCommands.STOP (by decide),
   command_frame_invariants.2.2 LinakCommands.MOVE_HEAD_UP (by decide)⟩

/-- Claim C9: after a position update for motor `m` with angle `a`, the
Position Table maps `m` to `a` and every currently registered callback is
invoked exactly once, in registration order, with the updated table;
registering hands back a working unregister operation, and unregistering one
callback does not prevent delivery of the same update to the other
still-registered callbacks. -/
theorem position_callback_fanout (c : Coordinator) (motor : String) (angle : ℚ)
    (cb other : Nat) :
    (handle_position_update c motor angle).1.position_data.lookup motor = some angle ∧
    (handle_position_update c motor angle).2.map Prod.fst = c.callbacks ∧
    (∀ inv ∈ (handle_position_update c motor angle).2,
      inv.2 = setPosition c.position_data motor angle) ∧
    cb ∈ (register_position_callback c cb).callbacks ∧
    (cb ∉ c.callbacks →
      unregister_position_callback (register_position_callback c cb) cb = c) ∧
    (other ∈ c.callbacks → other ≠ cb →
      (other, setPosition c.position_data motor angle) ∈
        (handle_position_update (unregister_position_callback c cb) motor angle).2) := by
  refine ⟨lookup_setPosition motor angle c.position_data, ?_, ?_, ?_, ?_, ?_⟩
  · simp [handle_position_update, Function.comp_def]
  · intro inv hinv
    simp only [handle_position_update, List.mem_map] at hinv
    obtain ⟨x, _, rfl⟩ := hinv
    rfl
  · simp [register_position_callback]
  · intro hcb
    have h : (c.callbacks ++ [cb]).erase cb = c.callbacks := by
      rw [List.erase_append_right _ hcb, List.erase_cons_head, List.append_nil]
    simp [unregister_position_callback, register_position_callback, h]
  · intro hother hne
    have hmem : other ∈ c.callbacks.erase cb := (List.mem_erase_of_ne hne).mpr hother
    exact List.mem_map.mpr ⟨other, hmem, rfl⟩

/-- Claim C9 witness: with callbacks 7 and 9 registered, an update for
"back" at 45 degrees stores the angle and reaches both; registering then
unregistering 9 restores the registry; after unregistering 7 the same update
still reaches 9. -/
theorem position_callback_fanout_witness :
    (handle_position_update ⟨[], [7, 9]⟩ "back" 45).1.position_data.lookup "back" =
      some 45 ∧
    (handle_position_update ⟨[], [7, 9]⟩ "back" 45).2.map Prod.fst = [7, 9] ∧
    unregister_position_callback (register_position_callback ⟨[], [7]⟩ 9) 9 =
      (⟨[], [7]⟩ : Coordinator) ∧
    (9, [("back", (45 : ℚ))]) ∈
      (handle_position_update (unregister_position_callback ⟨[], [7, 9]⟩ 7)
        "back" 45).2 :=
  ⟨(position_callback_fanout ⟨[], [7, 9]⟩ "back" 45 0 0).1,
   (position_callback_fanout ⟨[], [7, 9]⟩ "back" 45 0 0).2.1,
   (position_callback_fanout ⟨[], [7]⟩ "back" 45 9 0).2.2.2.2.1 (by decide),
   (position_callback_fanout ⟨[], [7, 9]⟩ "back" 45 7 9).2.2.2.2.2 (by decide)
     (by decide)⟩

/-- Claim C10: the base entity `available` property returns `True`
unconditionally — for every entity variant and every coordinator/connection
state, including no live transport session, the entity reports available;
the integration connects on demand when a command is sent. -/
theorem entity_always_available (ctx : EntityCtx) :
    SmartBedEntity_available ctx = true ∧ AdjustableBedEntity_available ctx = true :=
  ⟨rfl, rfl⟩

end SmartBed
